import Mathlib

/-!
Shallow embedding of emberclear's RelayConnection service
(src/packages/frontend/src/services/relay-connection.ts).

The service owns an optional phoenix Socket, an optional phoenix Channel and a
boolean `connected` flag.  Its public operations (`connect`, `send`,
`subscribeToChannel`) and its event handlers (socket error/close, channel
error/close, join ok/error/timeout, inbound chat) are modelled as pure
functions from the manager state to a new state together with the list of
observable actions they perform (toasts, console logs, socket/channel calls,
network pushes, `dispatcher.pingAll`).  Localized string lookup (`intl.t`) is
an external collaborator and is passed in as a function from key to string.
-/

namespace Emberclear

/-- Identity collaborator: supplies an optional public key (bytes). -/
structure Identity where
  publicKey : Option (List Nat)
deriving Repr, DecidableEq

/-- Modelled from the spec: IdentityService (emberclear/services/identity/service)
is not under src/.  The spec says `canConnect()` is true iff the identity
collaborator reports that a usable identity (key pair) already exists, and that
a `null` public key means no usable key: a usable key pair exists exactly when
a public key is available. -/
def Identity.existsKey (id : Identity) : Bool :=
  id.publicKey.isSome

/-- Modelled from the spec: `toHex` (emberclear/src/utils/string-encoding) is not
under src/.  The spec describes the channel identifier as
`user:<hex-encoded-public-key>`: the standard lowercase hex encoding of the key
bytes, two digits per byte. -/
def hexDigit (n : Nat) : Char :=
  if n < 10 then Char.ofNat (48 + n) else Char.ofNat (87 + n)

/-- Lowercase hex encoding of a byte list, most significant digit first. -/
def toHex (bytes : List Nat) : String :=
  String.mk (bytes.foldr (fun b acc => hexDigit (b / 16 % 16) :: hexDigit (b % 16) :: acc) [])

/-- `canConnect()` from the source: `await this.identity.exists()`. -/
def canConnect (id : Identity) : Bool :=
  id.existsKey

/-- `userChannelId()` from the source: empty string when no public key,
otherwise `toHex(publicKey)`. -/
def userChannelId (id : Identity) : String :=
  match id.publicKey with
  | none => ""
  | some pk => toHex pk

/-- The self-channel name used by `connect()`: the template `user:${publicKey}`
with `publicKey = userChannelId()`. -/
def selfChannelName (id : Identity) : String :=
  "user:" ++ userChannelId id

/-- Outcome state of the phoenix join push issued by `subscribeToChannel`:
still pending, or settled exactly once as ok / error / timeout. -/
inductive JoinStatus
  | pending
  | okd
  | errored
  | timedOut
deriving Repr, DecidableEq

/-- The phoenix Socket object as the manager sees it: construction URL, the
`uid` connection parameter, and whether the transport session is still up
(`live = false` after a close event or an explicit `disconnect()`). -/
structure SocketObj where
  url : String
  uid : String
  live : Bool
deriving Repr, DecidableEq

/-- The phoenix Channel object as the manager sees it: its name and the
settlement state of its join push. -/
structure ChannelObj where
  name : String
  joined : JoinStatus
deriving Repr, DecidableEq

/-- The payload `{ to, message }` built by `send`; the field `toAddr` models
the JSON key `to` (a reserved token here). -/
structure Payload where
  toAddr : String
  message : String
deriving Repr, DecidableEq

/-- Observable actions the service performs: user notifications, console
logging, socket/channel API calls, network pushes, and the dispatcher ping.
`channelLeaveCall` models phoenix's `channel.leave()`, which this source never
invokes; it is present so that its absence from every emitted action list is a
provable fact. -/
inductive Action
  | toastInfo (msg : String)
  | toastError (msg : String)
  | toastSuccess (msg : String)
  | consoleErrorMsg (msg : String)
  | consoleLogMsg (msg : String)
  | consoleInfoMsg (msg : String)
  | socketNew (url uid : String)
  | socketConnectCall
  | channelNew (name : String)
  | channelJoinCall
  | channelLeaveCall (name : String)
  | channelPush (event : String) (p : Payload)
  | pingAll
  | processorReceive (p : Payload)
deriving Repr, DecidableEq

/-- The fields of the RelayConnection service: `socket?: Socket`,
`channel?: Channel`, `connected = false`. -/
structure RelayConnection where
  socket : Option SocketObj
  channel : Option ChannelObj
  connected : Bool
deriving Repr, DecidableEq

/-- Initial service state: no socket, no channel, not connected. -/
def initialState : RelayConnection :=
  { socket := none, channel := none, connected := false }

/-- What `send` hands back to its caller: `unset` is JavaScript `undefined`
(the value of `return console.error(...)` on the no-channel path); `future`
is the promise wrapping the channel push. -/
inductive SendReturn
  | unset
  | future (event : String) (p : Payload)
deriving Repr, DecidableEq

/-- `send(to, data)` from the source: builds `{ to, message: data }`; if the
`channel` field is unset it logs the localized not-connected error and returns
`undefined`; otherwise it pushes event "chat" with the payload and returns a
promise. -/
def send (intl : String → String) (s : RelayConnection) (toAddr data : String) :
    SendReturn × List Action :=
  let payload : Payload := { toAddr := toAddr, message := data }
  match s.channel with
  | none =>
      (SendReturn.unset, [Action.consoleErrorMsg (intl "connection.errors.send.notConnected")])
  | some _ =>
      (SendReturn.future "chat" payload, [Action.channelPush "chat" payload])

/-- The single eventual outcome of a channel push (the relay wire contract:
exactly one of ok / error / timeout per push). -/
inductive PushOutcome
  | okReply (data : String)
  | errorReply (data : String)
  | timeout
deriving Repr, DecidableEq

/-- How the promise returned by `send` settles. -/
inductive FutureResult
  | resolved (v : String)
  | rejected (v : String)
  | rejectedReason (reason : String)
deriving Repr, DecidableEq

/-- The receive chain of `send`: ok resolves with the server reply, error
rejects with the server reply, timeout rejects with
`{ reason: intl.t('models.message.errors.timeout') }`.  Being a total function
of the single `PushOutcome`, it settles the future exactly once. -/
def settleSend (intl : String → String) : PushOutcome → FutureResult
  | PushOutcome.okReply d => FutureResult.resolved d
  | PushOutcome.errorReply d => FutureResult.rejected d
  | PushOutcome.timeout => FutureResult.rejectedReason (intl "models.message.errors.timeout")

/-- `subscribeToChannel(channelName)` from the source: with no socket it only
raises the localized subscribe error toast; otherwise it creates the channel,
stores it in the `channel` field (overwriting any previous value), wires the
handlers and issues the join. -/
def subscribeToChannel (intl : String → String) (s : RelayConnection) (channelName : String) :
    RelayConnection × List Action :=
  match s.socket with
  | none =>
      (s, [Action.toastError (intl "connection.errors.subscribe.notConnected")])
  | some _ =>
      ({ s with channel := some { name := channelName, joined := JoinStatus.pending } },
       [Action.channelNew channelName, Action.channelJoinCall])

/-- `connect()` from the source: returns immediately when `canConnect()` is
false or `connected` is already true; otherwise it toasts "connecting",
constructs a Socket at the relay URL with the public key as `uid`, initiates
the transport connect, subscribes to the self channel, sets
`connected = true` (before any join outcome arrives — the stored join status
is still pending) and fires `dispatcher.pingAll()`. -/
def connect (intl : String → String) (s : RelayConnection) (id : Identity) (url : String) :
    RelayConnection × List Action :=
  if !canConnect id || s.connected then (s, [])
  else
    let publicKey := userChannelId id
    let s1 : RelayConnection :=
      { s with socket := some { url := url, uid := publicKey, live := true } }
    let sub := subscribeToChannel intl s1 (selfChannelName id)
    ({ sub.1 with connected := true },
     [Action.toastInfo (intl "connection.connecting"),
      Action.socketNew url publicKey,
      Action.socketConnectCall] ++ sub.2 ++ [Action.pingAll])

/-- The `onSocketClose` handler: info toast and `connected := false`. -/
def onSocketCloseHandler (intl : String → String) (s : RelayConnection) :
    RelayConnection × List Action :=
  ({ s with connected := false }, [Action.toastInfo (intl "connection.status.socket.close")])

/-- `socket.disconnect()`: tears down the transport (the session stops being
live) and phoenix then delivers the close event to the hook registered via
`socket.onClose`, which is `onSocketClose`. -/
def disconnectSocket (intl : String → String) (s : RelayConnection) :
    RelayConnection × List Action :=
  match s.socket with
  | none => (s, [])
  | some o =>
      onSocketCloseHandler intl { s with socket := some { o with live := false } }

/-- The `onChannelError` handler: logs, then disconnects the socket when one
exists.  It does not clear the `channel` field. -/
def onChannelError (intl : String → String) (s : RelayConnection) :
    RelayConnection × List Action :=
  match s.socket with
  | none => (s, [Action.consoleLogMsg "channel errored"])
  | some _ =>
      let r := disconnectSocket intl s
      (r.1, Action.consoleLogMsg "channel errored" :: r.2)

/-- The `onChannelClose` handler: logs, then disconnects the socket when one
exists.  It does not clear the `channel` field. -/
def onChannelClose (intl : String → String) (s : RelayConnection) :
    RelayConnection × List Action :=
  match s.socket with
  | none => (s, [Action.consoleLogMsg "channel closed"])
  | some _ =>
      let r := disconnectSocket intl s
      (r.1, Action.consoleLogMsg "channel closed" :: r.2)

/-- Every public operation and every event the lower layers can deliver to a
RelayConnection instance. -/
inductive Step
  | connectCall (id : Identity) (url : String)
  | subscribeCall (name : String)
  | sendCall (toAddr data : String)
  | socketErrorEvt
  | socketCloseEvt
  | channelErrorEvt
  | channelCloseEvt
  | joinOkEvt
  | joinErrorEvt (data : String)
  | joinTimeoutEvt
  | chatEvt (p : Payload)
deriving Repr, DecidableEq

/-- One step of the event-driven state machine.  Socket events can only be
delivered while a socket exists (its handlers are registered on the socket),
channel events and join outcomes only while a channel exists; a join outcome
is delivered at most once (only while the join push is still pending). -/
def step (intl : String → String) (s : RelayConnection) : Step → RelayConnection × List Action
  | Step.connectCall id url => connect intl s id url
  | Step.subscribeCall name => subscribeToChannel intl s name
  | Step.sendCall toAddr data => (s, (send intl s toAddr data).2)
  | Step.socketErrorEvt =>
      match s.socket with
      | none => (s, [])
      | some _ => (s, [Action.toastError (intl "connection.status.socket.error")])
  | Step.socketCloseEvt =>
      match s.socket with
      | none => (s, [])
      | some o => onSocketCloseHandler intl { s with socket := some { o with live := false } }
  | Step.channelErrorEvt =>
      match s.channel with
      | none => (s, [])
      | some _ => onChannelError intl s
  | Step.channelCloseEvt =>
      match s.channel with
      | none => (s, [])
      | some _ => onChannelClose intl s
  | Step.joinOkEvt =>
      match s.channel with
      | none => (s, [])
      | some c =>
          if c.joined = JoinStatus.pending then
            ({ s with channel := some { c with joined := JoinStatus.okd } },
             [Action.toastSuccess (intl "connection.connected")])
          else (s, [])
  | Step.joinErrorEvt data =>
      match s.channel with
      | none => (s, [])
      | some c =>
          if c.joined = JoinStatus.pending then
            ({ s with channel := some { c with joined := JoinStatus.errored } },
             [Action.consoleErrorMsg data])
          else (s, [])
  | Step.joinTimeoutEvt =>
      match s.channel with
      | none => (s, [])
      | some c =>
          if c.joined = JoinStatus.pending then
            ({ s with channel := some { c with joined := JoinStatus.timedOut } },
             [Action.consoleInfoMsg (intl "connection.status.timeout")])
          else (s, [])
  | Step.chatEvt p =>
      match s.channel with
      | none => (s, [])
      | some _ => (s, [Action.processorReceive p])

/-- Runs a sequence of steps from a state, keeping only the resulting state. -/
def runState (intl : String → String) (s : RelayConnection) : List Step → RelayConnection
  | [] => s
  | e :: es => runState intl (step intl s e).1 es

/-- A state is reachable when some sequence of operations and events produces
it from the initial state. -/
def Reachable (intl : String → String) (s : RelayConnection) : Prop :=
  ∃ es : List Step, runState intl initialState es = s

/-- Whether the socket field holds a live (not disconnected) session. -/
def socketLive : Option SocketObj → Bool
  | none => false
  | some o => o.live

/-- State invariant maintained by every step: the socket and channel fields
are set together (connect creates both, nothing ever unsets either), and
`connected` implies a live socket and a stored channel. -/
def stateInv (s : RelayConnection) : Prop :=
  s.socket.isSome = s.channel.isSome ∧
  (s.connected = true → socketLive s.socket = true ∧ s.channel.isSome = true)

/-- A concrete reachable state right after a successful connect with key bytes
0x0a, 0xb1: live socket, self channel stored with the join still pending,
connected flag already true. -/
def connectedState : RelayConnection :=
  { socket := some { url := "wss://relay.example", uid := "0ab1", live := true },
    channel := some { name := "user:0ab1", joined := JoinStatus.pending },
    connected := true }

/-! Theorems.  First the state invariant, then one theorem per claim about the
RelayConnection embedding (with a counterexample where the claim fails on the
code, and a closed witness for every theorem with a hypothesis). -/

/-- The initial state satisfies the state invariant. -/
theorem stateInv_initial : stateInv initialState := by
  constructor <;> simp [initialState, socketLive]

/-- Every public operation and event handler preserves the state invariant. -/
theorem stateInv_step (intl : String → String) (s : RelayConnection) (e : Step)
    (h : stateInv s) : stateInv (step intl s e).1 := by
  obtain ⟨sock, chan, conn⟩ := s
  obtain ⟨h1, h2⟩ := h
  cases e with
  | connectCall id url =>
      by_cases hc : (!canConnect id || conn) = true
      · simpa [step, connect, hc] using ⟨h1, h2⟩
      · cases chan <;>
          simp [step, connect, hc, subscribeToChannel, stateInv, socketLive]
  | subscribeCall name =>
      cases sock <;> cases chan <;>
        simp_all [step, subscribeToChannel, stateInv, socketLive]
  | sendCall toAddr data =>
      exact ⟨h1, h2⟩
  | socketErrorEvt =>
      cases sock <;> exact ⟨h1, h2⟩
  | socketCloseEvt =>
      cases sock <;> cases chan <;>
        simp_all [step, onSocketCloseHandler, stateInv, socketLive]
  | channelErrorEvt =>
      cases chan <;> cases sock <;>
        simp_all [step, onChannelError, disconnectSocket, onSocketCloseHandler, stateInv,
          socketLive]
  | channelCloseEvt =>
      cases chan <;> cases sock <;>
        simp_all [step, onChannelClose, disconnectSocket, onSocketCloseHandler, stateInv,
          socketLive]
  | joinOkEvt =>
      cases chan with
      | none => exact ⟨h1, h2⟩
      | some c =>
          by_cases hp : c.joined = JoinStatus.pending <;>
            simp_all [step, stateInv, socketLive]
  | joinErrorEvt data =>
      cases chan with
      | none => exact ⟨h1, h2⟩
      | some c =>
          by_cases hp : c.joined = JoinStatus.pending <;>
            simp_all [step, stateInv, socketLive]
  | joinTimeoutEvt =>
      cases chan with
      | none => exact ⟨h1, h2⟩
      | some c =>
          by_cases hp : c.joined = JoinStatus.pending <;>
            simp_all [step, stateInv, socketLive]
  | chatEvt p =>
      cases chan <;> exact ⟨h1, h2⟩

/-- The state invariant is preserved along any run of steps. -/
theorem stateInv_runState (intl : String → String) (es : List Step) :
    ∀ s : RelayConnection, stateInv s → stateInv (runState intl s es) := by
  induction es with
  | nil => intro s hs; exact hs
  | cons e es ih =>
      intro s hs
      exact ih _ (stateInv_step intl s e hs)

/-- Every reachable state satisfies the state invariant. -/
theorem reachable_stateInv (intl : String → String) (s : RelayConnection)
    (h : Reachable intl s) : stateInv s := by
  obtain ⟨es, rfl⟩ := h
  exact stateInv_runState intl es initialState stateInv_initial

/-- Claim C1, counterexample: the state reached by a single successful
`connect()` has `connected = true` while the stored channel's join is still
pending (no ok outcome has been delivered), so `connected = true` does not
imply a ChannelSubscription whose join has completed with an ok outcome. -/
theorem connected_without_join_ok_counterexample :
    (runState (fun k => k) initialState
        [Step.connectCall { publicKey := some [10, 177] } "wss://relay.example"]).connected = true ∧
    (runState (fun k => k) initialState
        [Step.connectCall { publicKey := some [10, 177] } "wss://relay.example"]).channel =
      some { name := "user:0ab1", joined := JoinStatus.pending } := by decide

/-- Claim C1 (amended): in every reachable state, `connected = true` implies
the socket field holds a live SocketSession and the channel field holds a
ChannelSubscription whose join has been issued — but not necessarily confirmed
ok, since `connect()` raises the flag before any join outcome arrives. -/
theorem connected_implies_live_socket_and_channel (intl : String → String)
    (s : RelayConnection) (h : Reachable intl s) (hc : s.connected = true) :
    socketLive s.socket = true ∧ s.channel.isSome = true :=
  (reachable_stateInv intl s h).2 hc

/-- Witness for the amended claim C1 at the concrete post-connect state. -/
theorem connected_implies_live_socket_and_channel_witness :
    socketLive connectedState.socket = true ∧ connectedState.channel.isSome = true :=
  connected_implies_live_socket_and_channel (fun k => k) connectedState
    ⟨[Step.connectCall { publicKey := some [10, 177] } "wss://relay.example"], by decide⟩
    (by decide)

/-- Claim C2, counterexample: with no channel stored, `send("peer1", "hello")`
returns `undefined` (the value of `return console.error(...)`), not a rejected
future; the only action is the localized not-connected console error. -/
theorem send_no_channel_returns_undefined_counterexample :
    (send (fun k => k) initialState "peer1" "hello").1 = SendReturn.unset ∧
    (send (fun k => k) initialState "peer1" "hello").2 =
      [Action.consoleErrorMsg "connection.errors.send.notConnected"] := by decide

/-- Claim C2 (amended): whenever no ChannelSubscription exists, `send`
performs no network I/O (its only action is logging the localized
not-connected error via console.error) and returns `undefined` rather than a
rejected future. -/
theorem send_no_channel_no_network (intl : String → String) (s : RelayConnection)
    (toAddr data : String) (h : s.channel = none) :
    (send intl s toAddr data).1 = SendReturn.unset ∧
    (send intl s toAddr data).2 =
      [Action.consoleErrorMsg (intl "connection.errors.send.notConnected")] := by
  simp [send, h]

/-- Witness for the amended claim C2 at the initial state. -/
theorem send_no_channel_no_network_witness :
    (send (fun k => k) initialState "peer1" "hello").1 = SendReturn.unset ∧
    (send (fun k => k) initialState "peer1" "hello").2 =
      [Action.consoleErrorMsg "connection.errors.send.notConnected"] :=
  send_no_channel_no_network (fun k => k) initialState "peer1" "hello" (by decide)

/-- Claim C3: when the identity has no public key, `connect()` is a complete
no-op — no SocketSession is constructed, no channel subscription is issued, no
action is performed, and `connected` remains false. -/
theorem connect_without_key_is_noop (intl : String → String) (s : RelayConnection)
    (url : String) (h : s.connected = false) :
    connect intl s { publicKey := none } url = (s, []) ∧
    (connect intl s { publicKey := none } url).1.connected = false := by
  constructor
  · simp [connect, canConnect, Identity.existsKey]
  · simp [connect, canConnect, Identity.existsKey, h]

/-- Witness for claim C3 at the initial state. -/
theorem connect_without_key_is_noop_witness :
    connect (fun k => k) initialState { publicKey := none } "wss://relay.example" =
      (initialState, []) ∧
    (connect (fun k => k) initialState { publicKey := none }
        "wss://relay.example").1.connected = false :=
  connect_without_key_is_noop (fun k => k) initialState "wss://relay.example" (by decide)

/-- Claim C4: when `connect()` proceeds past its guard it sets
`connected = true` while the stored channel's join is still pending (so the
flag does not depend on the join's ok/error/timeout outcome), and its action
trace is exactly connecting-toast, socket construction, transport connect,
channel creation, join issuance, then `dispatcher.pingAll()` — which therefore
occurs exactly once, after the join has been issued. -/
theorem connect_optimistic_flag_and_pings_once (intl : String → String)
    (s : RelayConnection) (pk : List Nat) (url : String) (h : s.connected = false) :
    (connect intl s { publicKey := some pk } url).1.connected = true ∧
    (connect intl s { publicKey := some pk } url).1.channel =
      some { name := "user:" ++ toHex pk, joined := JoinStatus.pending } ∧
    (connect intl s { publicKey := some pk } url).2 =
      [Action.toastInfo (intl "connection.connecting"),
       Action.socketNew url (toHex pk),
       Action.socketConnectCall,
       Action.channelNew ("user:" ++ toHex pk),
       Action.channelJoinCall,
       Action.pingAll] ∧
    (connect intl s { publicKey := some pk } url).2.count Action.pingAll = 1 := by
  simp [connect, canConnect, Identity.existsKey, h, userChannelId, selfChannelName,
    subscribeToChannel, List.count_cons, List.count_nil]

/-- Witness for claim C4 at the initial state with key bytes 0x0a, 0xb1. -/
theorem connect_optimistic_flag_and_pings_once_witness :
    (connect (fun k => k) initialState { publicKey := some [10, 177] }
        "wss://relay.example").1.connected = true ∧
    (connect (fun k => k) initialState { publicKey := some [10, 177] }
        "wss://relay.example").1.channel =
      some { name := "user:" ++ toHex [10, 177], joined := JoinStatus.pending } ∧
    (connect (fun k => k) initialState { publicKey := some [10, 177] }
        "wss://relay.example").2 =
      [Action.toastInfo "connection.connecting",
       Action.socketNew "wss://relay.example" (toHex [10, 177]),
       Action.socketConnectCall,
       Action.channelNew ("user:" ++ toHex [10, 177]),
       Action.channelJoinCall,
       Action.pingAll] ∧
    (connect (fun k => k) initialState { publicKey := some [10, 177] }
        "wss://relay.example").2.count Action.pingAll = 1 :=
  connect_optimistic_flag_and_pings_once (fun k => k) initialState [10, 177]
    "wss://relay.example" (by decide)

/-- Claim C5: from every reachable state, delivering a channel-level error
event or a channel-level close event leaves `connected = false` and no live
SocketSession (the channel fault handlers disconnect the owning socket, whose
close hook clears the flag). -/
theorem channel_fault_tears_down_socket (intl : String → String) (s : RelayConnection)
    (h : Reachable intl s) :
    ((step intl s Step.channelErrorEvt).1.connected = false ∧
     socketLive (step intl s Step.channelErrorEvt).1.socket = false) ∧
    ((step intl s Step.channelCloseEvt).1.connected = false ∧
     socketLive (step intl s Step.channelCloseEvt).1.socket = false) := by
  obtain ⟨h1, h2⟩ := reachable_stateInv intl s h
  obtain ⟨sock, chan, conn⟩ := s
  cases chan with
  | none =>
      cases sock with
      | none =>
          cases conn with
          | false => simp [step, socketLive]
          | true => simp_all [socketLive]
      | some o => simp at h1
  | some c =>
      cases sock with
      | none => simp at h1
      | some o =>
          simp [step, onChannelError, onChannelClose, disconnectSocket,
            onSocketCloseHandler, socketLive]

/-- Witness for claim C5 at the concrete post-connect state. -/
theorem channel_fault_tears_down_socket_witness :
    ((step (fun k => k) connectedState Step.channelErrorEvt).1.connected = false ∧
     socketLive (step (fun k => k) connectedState Step.channelErrorEvt).1.socket = false) ∧
    ((step (fun k => k) connectedState Step.channelCloseEvt).1.connected = false ∧
     socketLive (step (fun k => k) connectedState Step.channelCloseEvt).1.socket = false) :=
  channel_fault_tears_down_socket (fun k => k) connectedState
    ⟨[Step.connectCall { publicKey := some [10, 177] } "wss://relay.example"], by decide⟩

/-- Claim C6, counterexample: after connect followed by a channel close event,
the channel field is still set, and `send("peer1", "hello")` does not fail
with the not-connected condition — it pushes "chat" on the stale channel and
returns a future. -/
theorem send_after_channel_close_counterexample :
    (runState (fun k => k) initialState
        [Step.connectCall { publicKey := some [10, 177] } "wss://relay.example",
         Step.channelCloseEvt]).channel.isSome = true ∧
    (send (fun k => k)
        (runState (fun k => k) initialState
          [Step.connectCall { publicKey := some [10, 177] } "wss://relay.example",
           Step.channelCloseEvt]) "peer1" "hello").2 =
      [Action.channelPush "chat" { toAddr := "peer1", message := "hello" }] ∧
    (send (fun k => k)
        (runState (fun k => k) initialState
          [Step.connectCall { publicKey := some [10, 177] } "wss://relay.example",
           Step.channelCloseEvt]) "peer1" "hello").1 =
      SendReturn.future "chat" { toAddr := "peer1", message := "hello" } := by decide

/-- Claim C6 (amended): a channel close event leaves the channel field
unchanged (still set), so every subsequent `send` still issues a "chat" push
on the stale channel and returns a future instead of failing with the
not-connected condition; the not-connected failure occurs only while the
channel field has never been set. -/
theorem send_after_channel_close_still_pushes (intl : String → String)
    (s : RelayConnection) (toAddr data : String) (hc : s.channel.isSome = true) :
    (step intl s Step.channelCloseEvt).1.channel = s.channel ∧
    (send intl (step intl s Step.channelCloseEvt).1 toAddr data).2 =
      [Action.channelPush "chat" { toAddr := toAddr, message := data }] ∧
    (send intl (step intl s Step.channelCloseEvt).1 toAddr data).1 =
      SendReturn.future "chat" { toAddr := toAddr, message := data } := by
  obtain ⟨sock, chan, conn⟩ := s
  cases chan with
  | none => simp at hc
  | some c =>
      cases sock <;>
        simp [step, onChannelClose, disconnectSocket, onSocketCloseHandler, send]

/-- Witness for the amended claim C6 at the concrete post-connect state. -/
theorem send_after_channel_close_still_pushes_witness :
    (step (fun k => k) connectedState Step.channelCloseEvt).1.channel =
      connectedState.channel ∧
    (send (fun k => k) (step (fun k => k) connectedState Step.channelCloseEvt).1
        "peer1" "hello").2 =
      [Action.channelPush "chat" { toAddr := "peer1", message := "hello" }] ∧
    (send (fun k => k) (step (fun k => k) connectedState Step.channelCloseEvt).1
        "peer1" "hello").1 =
      SendReturn.future "chat" { toAddr := "peer1", message := "hello" } :=
  send_after_channel_close_still_pushes (fun k => k) connectedState "peer1" "hello"
    (by decide)

/-- Claim C7: `connect()` is a complete no-op — same state, no actions, hence
no second SocketSession and no notifications — whenever `canConnect()` is
false or `connected` is already true. -/
theorem connect_guard_is_noop (intl : String → String) (s : RelayConnection)
    (id : Identity) (url : String) (h : canConnect id = false ∨ s.connected = true) :
    connect intl s id url = (s, []) := by
  rcases h with h | h <;> simp [connect, h]

/-- Witness for claim C7: a second `connect()` while already connected. -/
theorem connect_guard_is_noop_witness :
    connect (fun k => k) connectedState { publicKey := some [10, 177] }
      "wss://relay.example" = (connectedState, []) :=
  connect_guard_is_noop (fun k => k) connectedState { publicKey := some [10, 177] }
    "wss://relay.example" (Or.inr (by decide))

/-- Claim C8: with a stored ChannelSubscription, `send` pushes event "chat"
with payload exactly `{to, message: data}` and returns a future; the push's
single outcome settles the future in exactly one of three ways — ok resolves
with the server reply, error rejects with the server reply, timeout rejects
with the localized timeout reason (exactly-one-of-three is the totality of
`settleSend` over the single `PushOutcome` of the push). -/
theorem send_pushes_chat_and_settles_once (intl : String → String)
    (s : RelayConnection) (toAddr data d : String) (hc : s.channel.isSome = true) :
    (send intl s toAddr data).1 =
      SendReturn.future "chat" { toAddr := toAddr, message := data } ∧
    (send intl s toAddr data).2 =
      [Action.channelPush "chat" { toAddr := toAddr, message := data }] ∧
    settleSend intl (PushOutcome.okReply d) = FutureResult.resolved d ∧
    settleSend intl (PushOutcome.errorReply d) = FutureResult.rejected d ∧
    settleSend intl PushOutcome.timeout =
      FutureResult.rejectedReason (intl "models.message.errors.timeout") := by
  obtain ⟨sock, chan, conn⟩ := s
  cases chan with
  | none => simp at hc
  | some c => simp [send, settleSend]

/-- Witness for claim C8: the spec scenario — an active channel, a send to
peer1 with "hello", and a delivered-status ok reply resolving the future. -/
theorem send_pushes_chat_and_settles_once_witness :
    (send (fun k => k) connectedState "peer1" "hello").1 =
      SendReturn.future "chat" { toAddr := "peer1", message := "hello" } ∧
    (send (fun k => k) connectedState "peer1" "hello").2 =
      [Action.channelPush "chat" { toAddr := "peer1", message := "hello" }] ∧
    settleSend (fun k => k) (PushOutcome.okReply "status delivered") =
      FutureResult.resolved "status delivered" ∧
    settleSend (fun k => k) (PushOutcome.errorReply "status delivered") =
      FutureResult.rejected "status delivered" ∧
    settleSend (fun k => k) PushOutcome.timeout =
      FutureResult.rejectedReason "models.message.errors.timeout" :=
  send_pushes_chat_and_settles_once (fun k => k) connectedState "peer1" "hello"
    "status delivered" (by decide)

/-- Claim C9: self-channel identifier derivation is a deterministic function
of the public key — equal keys yield equal identifier strings — and for key
bytes 0x0a, 0xb1 the derived self-channel identifier is exactly "user:0ab1". -/
theorem self_channel_id_deterministic (id1 id2 : Identity)
    (h : id1.publicKey = id2.publicKey) :
    selfChannelName id1 = selfChannelName id2 ∧
    selfChannelName { publicKey := some [10, 177] } = "user:0ab1" := by
  constructor
  · unfold selfChannelName userChannelId
    rw [h]
  · decide

/-- Witness for claim C9 at the key bytes 0x0a, 0xb1. -/
theorem self_channel_id_deterministic_witness :
    selfChannelName { publicKey := some [10, 177] } =
      selfChannelName { publicKey := some [10, 177] } ∧
    selfChannelName { publicKey := some [10, 177] } = "user:0ab1" :=
  self_channel_id_deterministic { publicKey := some [10, 177] }
    { publicKey := some [10, 177] } rfl

/-- Claim C10: with a live socket, `subscribeToChannel` overwrites the single
channel field with the newly created channel regardless of the previous value,
and its action trace is exactly channel creation followed by the join — in
particular it contains no `channel.leave()` on any channel, so any previously
stored channel is dropped without being left or closed. -/
theorem subscribe_overwrites_channel_without_leave (intl : String → String)
    (s : RelayConnection) (channelName n : String) (h : s.socket.isSome = true) :
    (subscribeToChannel intl s channelName).1 =
      { s with channel := some { name := channelName, joined := JoinStatus.pending } } ∧
    (subscribeToChannel intl s channelName).2 =
      [Action.channelNew channelName, Action.channelJoinCall] ∧
    Action.channelLeaveCall n ∉ (subscribeToChannel intl s channelName).2 := by
  obtain ⟨sock, chan, conn⟩ := s
  cases sock with
  | none => simp at h
  | some o => simp [subscribeToChannel]

/-- Witness for claim C10: subscribing to a room channel while the self
channel is stored overwrites it and emits no leave on the old channel. -/
theorem subscribe_overwrites_channel_without_leave_witness :
    (subscribeToChannel (fun k => k) connectedState "room:general,user:0ab1").1 =
      { connectedState with
          channel := some { name := "room:general,user:0ab1",
                            joined := JoinStatus.pending } } ∧
    (subscribeToChannel (fun k => k) connectedState "room:general,user:0ab1").2 =
      [Action.channelNew "room:general,user:0ab1", Action.channelJoinCall] ∧
    Action.channelLeaveCall "user:0ab1" ∉
      (subscribeToChannel (fun k => k) connectedState "room:general,user:0ab1").2 :=
  subscribe_overwrites_channel_without_leave (fun k => k) connectedState
    "room:general,user:0ab1" "user:0ab1" (by decide)

end Emberclear
